import Mathlib

/-!
Verification of the LordsLab single-page application (src/index.tsx).

The file gives a shallow embedding of the app's storage engine
(getStorage / handleLogin), the insight requester (generateInsight), the
PCM audio codec (encodePCM / decodePCM), the playback scheduler of the
live-session onmessage callback, and the session teardown (stopVoiceLab),
and proves the testable properties stated about them.

Modelling conventions:
- JavaScript numbers appearing in the audio path are modelled with ℚ.
  Every operation exercised by the statements below (multiplication by
  32768, 16-bit wrap-around, division by 32768, max and addition of
  chunk times) is exact in binary floating point at the inputs used, so
  the rational model agrees with the JavaScript semantics there.
- Host APIs (JSON.parse, localStorage, btoa/atob, media tracks, audio
  contexts) are not code of this repository; they enter the embedding as
  explicit parameters or as fields of an explicit state record, with
  their platform-specified behaviour (JSON.parse may fail; btoa/atob is
  a bijection so the codec is modelled on the byte payload;
  MediaStreamTrack.stop never throws; AudioContext.close returns a
  promise whose rejection is consumed by the attached catch handler;
  AudioBufferSourceNode.stop may throw, modelled by a Boolean field).
-/

namespace LordsLab

/-! Audio codec, from encodePCM (src/index.tsx lines 30-37) and
decodePCM (lines 39-48). -/

/-- Conversion of an integer to a signed 16-bit value, as performed by a
JavaScript Int16Array element store (ToInt16): reduce modulo 2^16 into
[0, 2^16), then subtract 2^16 if the result is at least 2^15. -/
def toInt16 (n : Int) : Int :=
  let m := n % 65536
  if 32768 ≤ m then m - 65536 else m

/-- Truncation toward zero of a JavaScript number, as performed before an
integer-typed-array store (ToIntegerOrInfinity). -/
def jsTrunc (q : ℚ) : Int :=
  if q < 0 then -⌊-q⌋ else ⌊q⌋

/-- One sample of the encoder loop of encodePCM:
int16[i] = data[i] * 32768, an Int16Array element store. -/
def encodeSample (x : ℚ) : Int :=
  toInt16 (jsTrunc (x * 32768))

/-- Little-endian byte pair of a signed 16-bit value, as produced by
viewing the Int16Array buffer through a Uint8Array (encodePCM line 33). -/
def int16ToBytes (n : Int) : List Nat :=
  let u := (n % 65536).toNat
  [u % 256, u / 256]

/-- The encodePCM function of src/index.tsx on the sample level: each
floating-point sample is stored into an Int16Array (scaling by 32768 with
ToInt16 wrap-around) and the buffer is serialized to bytes little-endian.
The btoa base64 wrapper is a bijection inverted by atob on the decode
side, so the model works on the byte payload it carries. -/
def encodePCM (data : List ℚ) : List Nat :=
  (data.map encodeSample).flatMap int16ToBytes

/-- The fixed MIME descriptor attached by encodePCM to every outbound
chunk. -/
def pcmMimeType : String := "audio/pcm;rate=16000"

/-- Reassembly of a little-endian byte pair into a signed 16-bit value,
as performed by viewing the decoded bytes through an Int16Array
(decodePCM line 43). -/
def bytePairToInt16 (lo hi : Nat) : Int :=
  toInt16 (Int.ofNat (lo + 256 * hi))

/-- The byte stream viewed as consecutive little-endian 16-bit samples;
a trailing odd byte is dropped, as Int16Array drops a partial element. -/
def bytesToInt16s : List Nat → List Int
  | lo :: hi :: rest => bytePairToInt16 lo hi :: bytesToInt16s rest
  | _ => []

/-- One sample of the decoder loop of decodePCM:
channelData[i] = data16[i] / 32768.0. -/
def decodeSample (n : Int) : ℚ :=
  (n : ℚ) / 32768

/-- The decodePCM function of src/index.tsx on the sample level: the
base64 payload (modelled by its byte list, atob inverting btoa) is viewed
as 16-bit samples and each is divided by 32768. -/
def decodePCM (bytes : List Nat) : List ℚ :=
  (bytesToInt16s bytes).map decodeSample

/-! Storage engine, from getStorage (src/index.tsx lines 16-18) and
handleLogin (lines 136-146). -/

/-- JSON values, the possible results of the host JSON.parse. -/
inductive JsValue where
  | arr : List JsValue → JsValue
  | obj : List (String × JsValue) → JsValue
  | str : String → JsValue
  | num : Int → JsValue
  | bool : Bool → JsValue
  | null : JsValue

/-- Whether a JSON value is an array. -/
def JsValue.isArr : JsValue → Bool
  | .arr _ => true
  | _ => false

/-- The getStorage function of src/index.tsx:
try { return JSON.parse(localStorage.getItem(k) || '[]'); } catch { return []; }.
The host JSON.parse is the parameter parse (none models a thrown
SyntaxError, caught by the try/catch); the host localStorage is the
parameter store (none models a null getItem result). The JavaScript
|| operator also replaces an empty stored string by '[]', since the
empty string is falsy. -/
def getStorage (parse : String → Option JsValue) (store : String → Option String)
    (k : String) : JsValue :=
  let raw : String :=
    match store k with
    | some s => if s = "" then "[]" else s
    | none => "[]"
  match parse raw with
  | some v => v
  | none => JsValue.arr []

/-- A profile record as created by handleLogin:
{ name, jersey, role, points: 0, streak: 1 }. -/
structure UserRec where
  name : String
  jersey : String
  role : String
  points : Int
  streak : Int
  deriving DecidableEq, Repr

/-- The outcome of a handleLogin call: the record passed to setUser, the
persisted user list after the call, and whether saveStorage was invoked. -/
structure LoginResult where
  user : UserRec
  users : List UserRec
  saved : Bool
  deriving DecidableEq, Repr

/-- The handleLogin function of src/index.tsx (lines 136-146) on the
decoded user list: look up the jersey with Array.find; if absent, create
{ name, jersey, role, points: 0, streak: 1 }, push it and persist the
full list back with saveStorage; if present, return the stored record
without writing. The setUser/setScreen React calls carry no storage
effect and are represented by the returned record. -/
def handleLogin (name jersey role : String) (users : List UserRec) : LoginResult :=
  match users.find? (fun curr => curr.jersey == jersey) with
  | some u => ⟨u, users, false⟩
  | none =>
    let u : UserRec := ⟨name, jersey, role, 0, 1⟩
    ⟨u, users ++ [u], true⟩

/-! Insight requester, from generateInsight (src/index.tsx lines 148-163). -/

/-- The outcome of the external generateContent call: the promise rejects
(network error, API error - the catch branch), or it resolves and
res.text is absent or is a string. -/
inductive GenResult where
  | throwFail : GenResult
  | ok : Option String → GenResult
  deriving DecidableEq

/-- The generateInsight function of src/index.tsx (lines 148-163),
returning the string passed to setInsight: a missing (empty, hence
falsy) API_KEY short-circuits to a static message; a rejected call is
caught and replaced by a static fallback; a resolved call with a falsy
res.text (absent or empty) falls back to another static string via
res.text || fallback. -/
def generateInsight (apiKey : String) (res : GenResult) : String :=
  if apiKey = "" then "System Error: API_KEY missing."
  else
    match res with
    | .throwFail => "Winning is a habit. So is losing. Choose yours."
    | .ok t =>
      match t with
      | none => "Hold the standard."
      | some s => if s = "" then "Hold the standard." else s

/-- The static strings generateInsight can fall back to. -/
def insightFallbacks : List String :=
  ["System Error: API_KEY missing.",
   "Hold the standard.",
   "Winning is a habit. So is losing. Choose yours."]

/-! Playback scheduling, from the onmessage callback
(src/index.tsx lines 84-99). -/

/-- One scheduling step of the onmessage callback for an audio chunk:
nextStartTime = Math.max(nextStartTime, ctx.currentTime);
source.start(nextStartTime); nextStartTime += buffer.duration.
Arguments are the watermark before the step, the audio clock at the step
and the chunk duration; the result is the start time passed to
source.start and the watermark after the step. -/
def scheduleChunk (nextStart now duration : ℚ) : ℚ × ℚ :=
  let t := max nextStart now
  (t, t + duration)

/-! Session teardown, from stopVoiceLab (src/index.tsx lines 106-113). -/

/-- A scheduled playback source; stopThrows records whether its host
stop() call throws (AudioBufferSourceNode.stop throws InvalidStateError
when the node was never started). -/
structure AudioSrc where
  stopThrows : Bool
  deriving DecidableEq, Repr

/-- An audio context; closed records whether it is already closed, in
which case the promise returned by close() rejects. -/
structure AudioCtx where
  closed : Bool
  deriving DecidableEq, Repr

/-- The module-level mutable session state of src/index.tsx (lines
24-28): microphone stream (with its track count), the two audio
contexts, the set of scheduled playback sources and the playback
watermark. -/
structure VoiceState where
  micStream : Option Nat
  inputAudioContext : Option AudioCtx
  outputAudioContext : Option AudioCtx
  audioSources : List AudioSrc
  nextStartTime : ℚ
  deriving DecidableEq, Repr

/-- One host MediaStreamTrack.stop() call; the platform specifies it as
non-throwing. -/
def trackStop : Except String Unit := .ok ()

/-- One host AudioContext.close() call as issued by stopVoiceLab: the
synchronous call returns a promise and does not throw; rejection of the
promise (for an already-closed context) is consumed by the empty catch
handler attached at the call site. -/
def ctxClose (_c : AudioCtx) : Except String Unit := .ok ()

/-- One host AudioBufferSourceNode.stop() call, which may throw. -/
def srcStop (s : AudioSrc) : Except String Unit :=
  if s.stopThrows then .error "InvalidStateError" else .ok ()

/-- An empty catch block around an action: try { act } catch {}. -/
def swallow (act : Except String Unit) : Except String Unit :=
  match act with
  | .error _ => .ok ()
  | .ok u => .ok u

/-- The stopVoiceLab function of src/index.tsx (lines 106-113): stop
every microphone track, close both audio contexts (promise rejections
swallowed by .catch), stop every scheduled source inside try/catch,
clear the source set and reset the watermark to 0. A thrown error
anywhere outside a catch would propagate as Except.error. -/
def stopVoiceLab (st : VoiceState) : Except String VoiceState := do
  match st.micStream with
  | some n => (List.replicate n ()).forM (fun _ => trackStop)
  | none => pure ()
  match st.inputAudioContext with
  | some c => ctxClose c
  | none => pure ()
  match st.outputAudioContext with
  | some c => ctxClose c
  | none => pure ()
  st.audioSources.forM (fun s => swallow (srcStop s))
  pure { st with audioSources := [], nextStartTime := 0 }

/-! Helper lemmas. -/

/-- Evaluation of the encoder at the full-scale sample 1.0: the scaled
value 32768 overflows the signed 16-bit range and wraps to -32768. -/
theorem encodeSample_one : encodeSample 1 = -32768 := by
  norm_num [encodeSample, jsTrunc, toInt16]

/-- The byte payload produced by encodePCM for the single sample 1.0. -/
theorem encodePCM_one : encodePCM [1] = [0, 128] := by
  have h : encodePCM [1] = int16ToBytes (encodeSample 1) := by
    simp [encodePCM]
  rw [h, encodeSample_one]
  decide

/-- Decoding the byte pair [0, 128] yields the sample -1. -/
theorem decodePCM_bytes_one : decodePCM [0, 128] = [-1] := by
  norm_num [decodePCM, bytesToInt16s, bytePairToInt16, toInt16, decodeSample]

/-- An empty catch block always returns successfully. -/
theorem swallow_ok (act : Except String Unit) : swallow act = Except.ok () := by
  cases act with
  | error e => rfl
  | ok u => cases u; rfl

/-- Stopping any number of microphone tracks succeeds. -/
theorem forM_trackStop_ok (n : Nat) :
    (List.replicate n ()).forM (fun _ => trackStop) = Except.ok () := by
  induction n with
  | zero => rfl
  | succ m ih => simpa [List.replicate_succ, trackStop] using ih

/-- Stopping every scheduled source inside try/catch succeeds. -/
theorem forM_swallow_ok (l : List AudioSrc) :
    l.forM (fun s => swallow (srcStop s)) = Except.ok () := by
  induction l with
  | nil => rfl
  | cons a as ih => simpa [swallow_ok] using ih

/-- Normal form of stopVoiceLab: it always succeeds, clearing the source
set and resetting the watermark while leaving the other fields alone. -/
theorem stopVoiceLab_eq (st : VoiceState) :
    stopVoiceLab st = Except.ok { st with audioSources := [], nextStartTime := 0 } := by
  obtain ⟨ms, ic, oc, srcs, w⟩ := st
  cases ms <;> cases ic <;> cases oc <;>
    simp [stopVoiceLab, forM_trackStop_ok, forM_swallow_ok, ctxClose,
      Bind.bind, Except.bind, Pure.pure, Except.pure]

/-! Claim theorems. -/

/-- C1: the audio quantization round trip at the full-scale sample 1.0
does not reproduce 32767/32768. The encoder stores 1.0 * 32768 = 32768
into an Int16Array, which wraps it to -32768, and decoding yields -1,
the opposite end of the sample range, 2 away from the original instead
of within one least-significant bit. -/
theorem encodePCM_decodePCM_one_wraps :
    decodePCM (encodePCM [1]) = [-1] ∧
    decodePCM (encodePCM [1]) ≠ [(32767 : ℚ) / 32768] := by
  have h : decodePCM (encodePCM [1]) = [-1] := by
    rw [encodePCM_one, decodePCM_bytes_one]
  refine ⟨h, ?_⟩
  rw [h]
  intro hc
  have : (-1 : ℚ) = (32767 : ℚ) / 32768 := by
    simpa using hc
  norm_num at this

/-- C2 counterexample: the record created for an absent jersey number is
not zero-initialized — its streak counter is 1, not 0. -/
theorem handleLogin_new_record_not_zero_init :
    ¬ ((handleLogin "Smith" "12" "ATHLETE" []).user.points = 0 ∧
       (handleLogin "Smith" "12" "ATHLETE" []).user.streak = 0) := by
  decide

/-- C2 amended: when the jersey number is absent from the persisted
list, handleLogin appends and persists a record whose points counter is
zero and whose streak counter is initialized to 1, with the name, jersey
and role taken from the arguments. -/
theorem handleLogin_new_record_init (name jersey role : String) (users : List UserRec)
    (h : users.find? (fun curr => curr.jersey == jersey) = none) :
    (handleLogin name jersey role users).user.points = 0 ∧
    (handleLogin name jersey role users).user.streak = 1 ∧
    (handleLogin name jersey role users).users
      = users ++ [⟨name, jersey, role, 0, 1⟩] ∧
    (handleLogin name jersey role users).saved = true := by
  simp [handleLogin, h]

/-- C2 witness: creating jersey 12 from an empty store. -/
theorem handleLogin_new_record_init_w :
    (handleLogin "Smith" "12" "ATHLETE" []).user.points = 0 ∧
    (handleLogin "Smith" "12" "ATHLETE" []).user.streak = 1 ∧
    (handleLogin "Smith" "12" "ATHLETE" []).users
      = [] ++ [⟨"Smith", "12", "ATHLETE", 0, 1⟩] ∧
    (handleLogin "Smith" "12" "ATHLETE" []).saved = true :=
  handleLogin_new_record_init "Smith" "12" "ATHLETE" [] (by decide)

/-- C3: starting from a persisted list holding at most one record for a
jersey number, two handleLogin calls with that jersey number return the
same record, and the persisted list afterwards holds exactly one record
with that jersey number. -/
theorem handleLogin_twice_same_record (n1 r1 n2 r2 j : String) (users : List UserRec)
    (h : users.countP (fun curr => curr.jersey == j) ≤ 1) :
    (handleLogin n2 j r2 (handleLogin n1 j r1 users).users).user
      = (handleLogin n1 j r1 users).user ∧
    (handleLogin n2 j r2 (handleLogin n1 j r1 users).users).users.countP
      (fun curr => curr.jersey == j) = 1 := by
  cases hfind : users.find? (fun curr => curr.jersey == j) with
  | some u =>
    have hmem := List.mem_of_find?_eq_some hfind
    have hpu := List.find?_some hfind
    have hpos : 0 < users.countP (fun curr => curr.jersey == j) :=
      List.countP_pos_iff.mpr ⟨u, hmem, hpu⟩
    have heq1 : handleLogin n1 j r1 users = ⟨u, users, false⟩ := by
      simp [handleLogin, hfind]
    have heq2 : handleLogin n2 j r2 users = ⟨u, users, false⟩ := by
      simp [handleLogin, hfind]
    rw [heq1]
    refine ⟨?_, ?_⟩
    · show (handleLogin n2 j r2 users).user = u
      rw [heq2]
    · show (handleLogin n2 j r2 users).users.countP (fun curr => curr.jersey == j) = 1
      rw [heq2]
      show users.countP (fun curr => curr.jersey == j) = 1
      omega
  | none =>
    have hz : users.countP (fun curr => curr.jersey == j) = 0 :=
      List.countP_eq_zero.mpr (List.find?_eq_none.mp hfind)
    have hfind2 : (users ++ [(⟨n1, j, r1, 0, 1⟩ : UserRec)]).find?
        (fun curr => curr.jersey == j) = some ⟨n1, j, r1, 0, 1⟩ := by
      rw [List.find?_append, hfind]
      simp [List.find?]
    simp [handleLogin, hfind, hfind2, List.countP_append, hz, List.countP_cons]

/-- C3 witness: logging in twice with jersey 12 from an empty store. -/
theorem handleLogin_twice_same_record_w :
    (handleLogin "Lee" "12" "COACH" (handleLogin "Smith" "12" "ATHLETE" []).users).user
      = (handleLogin "Smith" "12" "ATHLETE" []).user ∧
    (handleLogin "Lee" "12" "COACH" (handleLogin "Smith" "12" "ATHLETE" []).users).users.countP
      (fun curr => curr.jersey == "12") = 1 :=
  handleLogin_twice_same_record "Smith" "ATHLETE" "Lee" "COACH" "12" [] (by decide)

/-- C4: when the stored blob does not parse as JSON (and, as for real
JSON.parse, the literal square-bracket pair parses to the empty array),
getStorage returns the empty array and returns normally, the thrown
SyntaxError being caught. -/
theorem getStorage_invalid_json_empty (parse : String → Option JsValue)
    (store : String → Option String) (k s : String)
    (hget : store k = some s)
    (hbr : parse "[]" = some (JsValue.arr []))
    (hfail : parse s = none) :
    getStorage parse store k = JsValue.arr [] := by
  unfold getStorage
  rw [hget]
  by_cases hs : s = ""
  · subst hs
    simp [hbr]
  · simp only [if_neg hs, hfail]

/-- C4 witness: a corrupt blob under the users key recovers to the empty
array. -/
theorem getStorage_invalid_json_empty_w :
    getStorage (fun t => if t = "[]" then some (JsValue.arr []) else none)
      (fun _ => some "corrupt blob") "lords_lab_v5_users" = JsValue.arr [] :=
  getStorage_invalid_json_empty _ _ _ "corrupt blob" rfl rfl rfl

/-- C5 counterexample: when the second chunk is scheduled after the
audio clock has passed the end of the first chunk (first scheduled at
clock 0, watermark 0, duration 1; second scheduled at clock 2), the
second start time is 2, not start1 + d1 = 1, so the second chunk does
not start at exactly start1 + d1. -/
theorem scheduleChunk_second_not_exact :
    ¬ ((scheduleChunk (scheduleChunk 0 0 1).2 2 1).1
        = (scheduleChunk 0 0 1).1 + 1) := by
  norm_num [scheduleChunk]

/-- C5 amended: for two consecutively scheduled chunks, the second never
starts earlier than start1 + d1, and it starts at exactly start1 + d1
whenever it is scheduled while the audio clock has not yet passed
start1 + d1 (the watermark); if the clock has already passed that point
the chunk starts at the current clock instead. -/
theorem scheduleChunk_second_watermark (w0 t1 d1 t2 d2 : ℚ) :
    (scheduleChunk w0 t1 d1).1 + d1
      ≤ (scheduleChunk (scheduleChunk w0 t1 d1).2 t2 d2).1 ∧
    (t2 ≤ (scheduleChunk w0 t1 d1).1 + d1 →
      (scheduleChunk (scheduleChunk w0 t1 d1).2 t2 d2).1
        = (scheduleChunk w0 t1 d1).1 + d1) := by
  refine ⟨?_, fun h => ?_⟩
  · exact le_max_left _ _
  · exact max_eq_left h

/-- C5 witness: first chunk at clock 0 with duration 1, second chunk
scheduled at clock 1/2 starts no earlier than, and exactly at, 1. -/
theorem scheduleChunk_second_watermark_w :
    (scheduleChunk 0 0 1).1 + 1
      ≤ (scheduleChunk (scheduleChunk 0 0 1).2 (1 / 2) 1).1 ∧
    (scheduleChunk (scheduleChunk 0 0 1).2 (1 / 2) 1).1
      = (scheduleChunk 0 0 1).1 + 1 :=
  ⟨(scheduleChunk_second_watermark 0 0 1 (1 / 2) 1).1,
   (scheduleChunk_second_watermark 0 0 1 (1 / 2) 1).2 (by norm_num [scheduleChunk])⟩

/-- C6: on every failure mode of the insight request — missing
credential, rejected call, or a resolved call with an absent or empty
text — generateInsight returns one of the three static fallback strings
and never the empty string; being a total function it returns normally
in all cases. -/
theorem generateInsight_fallback (apiKey : String) (res : GenResult)
    (h : apiKey = "" ∨ res = .throwFail ∨ res = .ok none ∨ res = .ok (some "")) :
    generateInsight apiKey res ∈ insightFallbacks ∧
    generateInsight apiKey res ≠ "" := by
  by_cases hk : apiKey = ""
  · simp [generateInsight, hk, insightFallbacks]
  · rcases h with h | h | h | h
    · exact absurd h hk
    · subst h; simp [generateInsight, hk, insightFallbacks]
    · subst h; simp [generateInsight, hk, insightFallbacks]
    · subst h; simp [generateInsight, hk, insightFallbacks]

/-- C6 witness: a rejected call with a present credential falls back to
a canned string. -/
theorem generateInsight_fallback_w :
    generateInsight "some-key" GenResult.throwFail ∈ insightFallbacks ∧
    generateInsight "some-key" GenResult.throwFail ≠ "" :=
  generateInsight_fallback "some-key" GenResult.throwFail (Or.inr (Or.inl rfl))

/-- C7: stopVoiceLab returns normally on every session state — any
number of scheduled sources (throwing or not on stop), any combination
of present, absent, open or closed audio contexts, and a present or
absent microphone stream; every exception raised during teardown is
swallowed by a catch handler. -/
theorem stopVoiceLab_never_throws (st : VoiceState) :
    ∃ st', stopVoiceLab st = Except.ok st' :=
  ⟨_, stopVoiceLab_eq st⟩

/-- C8: when the jersey number is already present, handleLogin returns
the stored record with every field unchanged, ignoring the supplied
name and role, and neither modifies the user list nor calls
saveStorage. -/
theorem handleLogin_existing_frame (name jersey role : String)
    (users : List UserRec) (u : UserRec)
    (h : users.find? (fun curr => curr.jersey == jersey) = some u) :
    handleLogin name jersey role users = ⟨u, users, false⟩ := by
  simp [handleLogin, h]

/-- C8 witness: logging in again as jersey 12 with a different name and
role returns the stored record and leaves the list alone. -/
theorem handleLogin_existing_frame_w :
    handleLogin "Smith" "12" "COACH" [⟨"Jones", "12", "ATHLETE", 7, 3⟩]
      = ⟨⟨"Jones", "12", "ATHLETE", 7, 3⟩, [⟨"Jones", "12", "ATHLETE", 7, 3⟩], false⟩ :=
  handleLogin_existing_frame "Smith" "12" "COACH" _ _ (by decide)

/-- C9: when the stored blob parses as JSON but is not an array — an
object, a number, anything else — getStorage returns the parsed value
unchanged, with no shape validation; the empty-array recovery applies
only to unparseable input. -/
theorem getStorage_non_array_passthrough (parse : String → Option JsValue)
    (store : String → Option String) (k s : String) (v : JsValue)
    (hget : store k = some s)
    (hs : s ≠ "")
    (hv : parse s = some v)
    (_hna : v.isArr = false) :
    getStorage parse store k = v := by
  unfold getStorage
  rw [hget]
  simp only [if_neg hs, hv]

/-- C9 witness: a stored blob parsing to a JSON object is returned as
that object. -/
theorem getStorage_non_array_passthrough_w :
    getStorage (fun t => if t = "not-an-array" then some (JsValue.obj []) else none)
      (fun _ => some "not-an-array") "lords_lab_v5_users" = JsValue.obj [] :=
  getStorage_non_array_passthrough _ _ _ "not-an-array" (JsValue.obj [])
    rfl (by decide) rfl rfl

/-- C10: whatever the session state before the call, after stopVoiceLab
returns the playback-source set is empty and the playback watermark is
reset to 0, so a subsequent session starts with a fresh schedule. -/
theorem stopVoiceLab_resets (st st' : VoiceState)
    (h : stopVoiceLab st = Except.ok st') :
    st'.audioSources = [] ∧ st'.nextStartTime = 0 := by
  rw [stopVoiceLab_eq st] at h
  cases h
  exact ⟨rfl, rfl⟩

/-- C10 witness: tearing down a session with one throwing source, both
contexts present and a nonzero watermark yields an empty source set and
a zero watermark. -/
theorem stopVoiceLab_resets_w :
    (⟨some 1, some ⟨false⟩, some ⟨true⟩, [], 0⟩ : VoiceState).audioSources = [] ∧
    (⟨some 1, some ⟨false⟩, some ⟨true⟩, [], 0⟩ : VoiceState).nextStartTime = 0 :=
  stopVoiceLab_resets ⟨some 1, some ⟨false⟩, some ⟨true⟩, [⟨true⟩], 7⟩
    ⟨some 1, some ⟨false⟩, some ⟨true⟩, [], 0⟩ (by rfl)

end LordsLab
